import Mathlib

/-!
Shallow embedding of `rgbkeyboards/corsair/corsair.py` (class `Corsair`),
the Corsair device adapter of the python-rgbkeyboards repository, together
with theorems settling the frozen claims about it.

Modelling conventions:
* Python runtime values that flow through the adapter's duck-typed
  arguments are embedded as the inductive type `PyVal`.
* A Python `raise ValueError(msg)` is embedded as `Except.error
  (PyError.valueError msg)`; since every `raise` in the source happens
  before the single vendor-library call of the method, an `error` result
  also means that nothing was submitted to the vendor library.
* The vendor CUE SDK (`self.library`) is an external closed binary
  (spec section 6).  Only the parts the adapter touches are modelled: the
  enumerated device list behind `get_device_count` / `get_device_info(i)`,
  the result of the zero-argument `get_device_info()` call, and
  `set_led_colors(batch)`, whose argument (the submitted batch) is
  returned as the `ok` payload of the embedded methods.
* The key-name table `keys` (module `rgbkeyboards/corsair/keys.py`,
  an external static collaborator) is passed as an explicit association
  list parameter, in dict insertion order.
-/

namespace Rgbkeyboards

/-- Embedded Python runtime values, rich enough for the adapter's
duck-typed arguments: integers, strings, tuples, dictionaries with string
keys (item list in insertion order), callables, and `None`. -/
inductive PyVal where
  | int (n : Int)
  | str (s : String)
  | tup (xs : List PyVal)
  | dict (entries : List (String × PyVal))
  | func (id : Nat)
  | pynone

/-- Python `isinstance(v, int)`. -/
def PyVal.isInt : PyVal → Bool
  | .int _ => true
  | _ => false

/-- The integer payload of a `PyVal.int`; only used after `isInt` holds. -/
def PyVal.toInt : PyVal → Int
  | .int n => n
  | _ => 0

/-- Python `isinstance(v, dict)`. -/
def PyVal.isDict : PyVal → Bool
  | .dict _ => true
  | _ => false

/-- Python `callable(v)`: of the embedded value kinds only function
objects are invocable. -/
def PyVal.isCallable : PyVal → Bool
  | .func _ => true
  | _ => false

/-- Python truthiness of an embedded value (`bool(v)`). -/
def PyVal.truthy : PyVal → Bool
  | .int n => n != 0
  | .str s => s != ""
  | .tup xs => !xs.isEmpty
  | .dict es => !es.isEmpty
  | .func _ => true
  | .pynone => false

/-- Exceptions the adapter raises itself. -/
inductive PyError where
  | valueError (msg : String)
  | notImplementedError (msg : String)
  deriving DecidableEq

/-- Device information returned by the vendor SDK: the device-type code
(`2` is the keyboard type in `get_layout`) and the physical-layout code. -/
structure DeviceInfo where
  type : Nat
  physicalLayout : Nat
  deriving DecidableEq

/-- Abstraction of the loaded vendor CUE SDK (external closed binary,
spec section 6): `devices` is the enumerated device list, so
`get_device_count()` is `devices.length` and `get_device_info(i)` is
`devices[i]`; `infoNoArg` is the device info returned by the
zero-argument call `get_device_info()` that `get_layout` and
`get_device_available` make, with `none` standing for a falsy result. -/
structure CUESDK where
  devices : List DeviceInfo
  infoNoArg : Option DeviceInfo
  deriving DecidableEq

/-- Python dict lookup on the association-list embedding of a dict with
string keys (keys of a Python dict are unique, so first match is the
match): `some v` when `k in d` with `d[k] = v`, `none` when `k not in d`. -/
def dictLookup (d : List (String × Nat)) (k : String) : Option Nat :=
  match d with
  | [] => none
  | (k0, v) :: rest => if k0 = k then some v else dictLookup rest k

/-- The `for i in range(0, get_device_count())` loop of `get_layout`,
walking the enumerated device list: at the first device whose `.type`
equals `2` it sets `results = self.library.get_device_info()` — the
ZERO-argument call, exactly as in the source — and breaks; if no device
matches, `results` keeps its initial value `None`. -/
def getLayoutLoop (lib : CUESDK) : List DeviceInfo → Option DeviceInfo
  | [] => none
  | d :: rest => if d.type = 2 then lib.infoNoArg else getLayoutLoop lib rest

/-- `Corsair.get_layout`: runs the enumeration loop, raises
`ValueError("Could not detect a Corsair keyboard")` when `results` is
falsy, and otherwise returns `results.physicalLayout`. -/
def get_layout (lib : CUESDK) : Except PyError Nat :=
  match getLayoutLoop lib lib.devices with
  | none => .error (.valueError "Could not detect a Corsair keyboard")
  | some results => .ok results.physicalLayout

/-- C1: the claim says `GetLayout` returns the physical-layout identifier
of the first keyboard-type device found by the enumeration.  The code
instead takes the break branch at that device but then reads the device
info from the zero-argument `get_device_info()` call, ignoring the loop
index.  Concretely: with a single enumerated device of type `2` and
physical layout `5`, while the zero-argument query reports a device with
physical layout `7`, `get_layout` returns `7`, not the found keyboard's
`5`. -/
theorem C1_get_layout_returns_noarg_info_not_found_device :
    get_layout ⟨[⟨2, 5⟩], some ⟨0, 7⟩⟩ = .ok 7 ∧ (7 : Nat) ≠ 5 :=
  ⟨rfl, by decide⟩

/-- C2: over a device list containing no keyboard-type device (no device
with type code `2`), `get_layout` raises
`ValueError("Could not detect a Corsair keyboard")`. -/
theorem C2_get_layout_no_keyboard_raises (lib : CUESDK)
    (h : ∀ d ∈ lib.devices, d.type ≠ 2) :
    get_layout lib = .error (.valueError "Could not detect a Corsair keyboard") := by
  have hloop : ∀ ds : List DeviceInfo, (∀ d ∈ ds, d.type ≠ 2) →
      getLayoutLoop lib ds = none := by
    intro ds
    induction ds with
    | nil => intro _; rfl
    | cons d rest ih =>
      intro hds
      have hd : d.type ≠ 2 := hds d (List.mem_cons_self d rest)
      have hrest : ∀ x ∈ rest, x.type ≠ 2 := fun x hx => hds x (List.mem_cons_of_mem d hx)
      simp only [getLayoutLoop, if_neg hd]
      exact ih hrest
  simp only [get_layout, hloop lib.devices h]

/-- Witness for C2 at a concrete device list with no keyboard-type
device. -/
theorem C2_get_layout_no_keyboard_raises_witness :
    get_layout ⟨[⟨0, 1⟩, ⟨3, 4⟩], some ⟨2, 9⟩⟩ =
      .error (.valueError "Could not detect a Corsair keyboard") :=
  C2_get_layout_no_keyboard_raises ⟨[⟨0, 1⟩, ⟨3, 4⟩], some ⟨2, 9⟩⟩ (by decide)

/-- One `CorsairLedColor(led, r, g, b)` entry of a batch passed to the
vendor library's `set_led_colors`. The channel fields keep the embedded
Python values the source puts there (`set_ind_led_color` never
type-checks the tuple elements). -/
structure CorsairLedColor where
  led : Nat
  r : PyVal
  g : PyVal
  b : PyVal

/-- `Corsair.set_full_led_color(r, g, b)`: raises on a non-int channel,
then on a channel outside the exclusive range `0 < c < 255`, and
otherwise submits `[CorsairLedColor(i, r, g, b) for i in keys.values()]`
— one entry per entry of the key table — to `set_led_colors`; the `ok`
payload is that submitted batch. -/
def set_full_led_color (keys : List (String × Nat)) (r g b : PyVal) :
    Except PyError (List CorsairLedColor) :=
  if ¬ (r.isInt = true ∧ g.isInt = true ∧ b.isInt = true) then
    .error (.valueError "Parameters passed not all int type")
  else if ¬ (0 < r.toInt ∧ r.toInt < 255 ∧ 0 < g.toInt ∧ g.toInt < 255 ∧
      0 < b.toInt ∧ b.toInt < 255) then
    .error (.valueError "Parameters not within range")
  else
    .ok (keys.map fun kv => ⟨kv.2, r, g, b⟩)

/-- C3: whenever one of the channel arguments is the integer `0`, the
integer `255`, or not an integer at all, `set_full_led_color` raises a
`ValueError` (so nothing reaches `set_led_colors`, whose call is the
method's final expression). -/
theorem C3_set_full_led_color_boundary_rejected
    (keys : List (String × Nat)) (r g b : PyVal)
    (h : (r = .int 0 ∨ r = .int 255 ∨ g = .int 0 ∨ g = .int 255 ∨
          b = .int 0 ∨ b = .int 255) ∨
         (r.isInt = false ∨ g.isInt = false ∨ b.isInt = false)) :
    ∃ msg, set_full_led_color keys r g b = .error (.valueError msg) := by
  by_cases hint : r.isInt = true ∧ g.isInt = true ∧ b.isInt = true
  · refine ⟨"Parameters not within range", ?_⟩
    have hrange : ¬ (0 < r.toInt ∧ r.toInt < 255 ∧ 0 < g.toInt ∧ g.toInt < 255 ∧
        0 < b.toInt ∧ b.toInt < 255) := by
      rcases h with hb | hni
      · rcases hb with h0 | h0 | h0 | h0 | h0 | h0 <;> subst h0 <;>
          simp only [PyVal.toInt] <;> omega
      · rcases hni with h0 | h0 | h0 <;> simp [hint.1, hint.2.1, hint.2.2] at h0
    simp [set_full_led_color, hint, hrange]
  · exact ⟨"Parameters passed not all int type", by simp [set_full_led_color, hint]⟩

/-- Witness for C3 at the boundary value `r = 0`. -/
theorem C3_set_full_led_color_boundary_rejected_witness :
    ∃ msg, set_full_led_color [("a", 1)] (.int 0) (.int 10) (.int 20) =
      .error (.valueError msg) :=
  C3_set_full_led_color_boundary_rejected [("a", 1)] (.int 0) (.int 10) (.int 20)
    (Or.inl (Or.inl rfl))

/-- C4: for integer channels each in `[1, 254]`, `set_full_led_color`
submits as one batch exactly one entry per entry of the key table, each
entry carrying the table entry's LED identifier and the triple
`(r, g, b)`. -/
theorem C4_set_full_led_color_batch (keys : List (String × Nat)) (r g b : Int)
    (hr : 1 ≤ r ∧ r ≤ 254) (hg : 1 ≤ g ∧ g ≤ 254) (hb : 1 ≤ b ∧ b ≤ 254) :
    set_full_led_color keys (.int r) (.int g) (.int b) =
      .ok (keys.map fun kv => ⟨kv.2, .int r, .int g, .int b⟩) := by
  have hint : (PyVal.int r).isInt = true ∧ (PyVal.int g).isInt = true ∧
      (PyVal.int b).isInt = true := by simp [PyVal.isInt]
  have hrange : 0 < (PyVal.int r).toInt ∧ (PyVal.int r).toInt < 255 ∧
      0 < (PyVal.int g).toInt ∧ (PyVal.int g).toInt < 255 ∧
      0 < (PyVal.int b).toInt ∧ (PyVal.int b).toInt < 255 := by
    simp only [PyVal.toInt]; omega
  simp [set_full_led_color, hint, hrange]

/-- Witness for C4: a two-entry key table, channels `(1, 128, 254)`. -/
theorem C4_set_full_led_color_batch_witness :
    set_full_led_color [("a", 3), ("b", 0)] (.int 1) (.int 128) (.int 254) =
      .ok [⟨3, .int 1, .int 128, .int 254⟩, ⟨0, .int 1, .int 128, .int 254⟩] :=
  C4_set_full_led_color_batch [("a", 3), ("b", 0)] 1 128 254
    (by decide) (by decide) (by decide)

/-- The `for key, value in leds.items()` loop of `set_ind_led_color`,
with the accumulator list `parameter`: an unknown key name raises
`ValueError("Invalid key found")`; a non-tuple value raises
`ValueError("Value found for key not tuple")`; a tuple of length other
than three raises `ValueError("Value found for key not with length 3")`;
an entry whose `keys[key]` is falsy (`0`) is skipped with `continue`;
otherwise `CorsairLedColor(keys[key], r, g, b)` is appended. -/
def setIndLedLoop (keys : List (String × Nat)) :
    List (String × PyVal) → List CorsairLedColor → Except PyError (List CorsairLedColor)
  | [], parameter => .ok parameter
  | (key, value) :: rest, parameter =>
    if (dictLookup keys key).isNone then
      .error (.valueError "Invalid key found")
    else
      match value with
      | .tup [r, g, b] =>
        if (dictLookup keys key).getD 0 = 0 then
          setIndLedLoop keys rest parameter
        else
          setIndLedLoop keys rest (parameter ++ [⟨(dictLookup keys key).getD 0, r, g, b⟩])
      | .tup _ => .error (.valueError "Value found for key not with length 3")
      | _ => .error (.valueError "Value found for key not tuple")

/-- `Corsair.set_ind_led_color(leds)`: raises
`ValueError("Parameter leds is not a dictionary")` unless `leds` is a
dict, then runs the validation/accumulation loop over its items starting
from `parameter = []`, and finally submits the accumulated batch through
`self.library.set_led_colors(parameter)`; the `ok` payload is that
submitted batch. -/
def set_ind_led_color (keys : List (String × Nat)) (leds : PyVal) :
    Except PyError (List CorsairLedColor) :=
  match leds with
  | .dict entries => setIndLedLoop keys entries []
  | _ => .error (.valueError "Parameter leds is not a dictionary")

/-- The loop raises some `ValueError` whenever some item's key name is
absent from the key table, whatever the accumulator holds. -/
theorem setIndLedLoop_unknown_key (keys : List (String × Nat))
    (entries : List (String × PyVal))
    (h : entries.any (fun kv => (dictLookup keys kv.1).isNone) = true) :
    ∀ parameter, ∃ msg, setIndLedLoop keys entries parameter = .error (.valueError msg) := by
  induction entries with
  | nil => simp at h
  | cons kv rest ih =>
    intro parameter
    obtain ⟨key, value⟩ := kv
    by_cases hk : (dictLookup keys key).isNone
    · exact ⟨"Invalid key found", by simp [setIndLedLoop, hk]⟩
    · have hrest : rest.any (fun kv => (dictLookup keys kv.1).isNone) = true := by
        simpa [hk] using h
      match value with
      | .tup [r, g, b] =>
        by_cases hz : (dictLookup keys key).getD 0 = 0
        · simpa [setIndLedLoop, hk, hz] using ih hrest parameter
        · simpa [setIndLedLoop, hk, hz] using
            ih hrest (parameter ++ [⟨(dictLookup keys key).getD 0, r, g, b⟩])
      | .tup [] =>
        exact ⟨"Value found for key not with length 3", by simp [setIndLedLoop, hk]⟩
      | .tup [x] =>
        exact ⟨"Value found for key not with length 3", by simp [setIndLedLoop, hk]⟩
      | .tup [x, y] =>
        exact ⟨"Value found for key not with length 3", by simp [setIndLedLoop, hk]⟩
      | .tup (x :: y :: z :: w :: xs) =>
        exact ⟨"Value found for key not with length 3", by simp [setIndLedLoop, hk]⟩
      | .int n => exact ⟨"Value found for key not tuple", by simp [setIndLedLoop, hk]⟩
      | .str s => exact ⟨"Value found for key not tuple", by simp [setIndLedLoop, hk]⟩
      | .dict es => exact ⟨"Value found for key not tuple", by simp [setIndLedLoop, hk]⟩
      | .func i => exact ⟨"Value found for key not tuple", by simp [setIndLedLoop, hk]⟩
      | .pynone => exact ⟨"Value found for key not tuple", by simp [setIndLedLoop, hk]⟩

/-- C5: a mapping containing at least one key name absent from the key
table makes `set_ind_led_color` raise a `ValueError`; the raise happens
inside the loop, so the trailing `set_led_colors` call is never reached
and nothing is submitted. -/
theorem C5_set_ind_led_color_unknown_key (keys : List (String × Nat))
    (entries : List (String × PyVal))
    (h : entries.any (fun kv => (dictLookup keys kv.1).isNone) = true) :
    ∃ msg, set_ind_led_color keys (.dict entries) = .error (.valueError msg) := by
  simpa [set_ind_led_color] using setIndLedLoop_unknown_key keys entries h []

/-- Witness for C5: the second item's key `"zz"` is not in the table. -/
theorem C5_set_ind_led_color_unknown_key_witness :
    ∃ msg, set_ind_led_color [("a", 3)]
        (.dict [("a", .tup [.int 1, .int 2, .int 3]), ("zz", .tup [.int 1, .int 2, .int 3])]) =
      .error (.valueError msg) :=
  C5_set_ind_led_color_unknown_key [("a", 3)]
    [("a", .tup [.int 1, .int 2, .int 3]), ("zz", .tup [.int 1, .int 2, .int 3])]
    (by simp [dictLookup])

/-- The loop leaves the accumulator untouched and succeeds when every
item has a known key name resolving to the falsy identifier `0` and a
3-tuple value. -/
theorem setIndLedLoop_all_falsy (keys : List (String × Nat))
    (entries : List (String × PyVal))
    (h : entries.all (fun kv =>
      (dictLookup keys kv.1 == some 0) &&
        (match kv.2 with | .tup xs => xs.length == 3 | _ => false)) = true) :
    ∀ parameter, setIndLedLoop keys entries parameter = .ok parameter := by
  induction entries with
  | nil => intro parameter; rfl
  | cons kv rest ih =>
    intro parameter
    obtain ⟨key, value⟩ := kv
    rw [List.all_cons, Bool.and_eq_true, Bool.and_eq_true] at h
    obtain ⟨⟨hk0, hv⟩, hrest⟩ := h
    have hk : dictLookup keys key = some 0 := by simpa using hk0
    cases value with
    | tup xs =>
      have hlen : xs.length = 3 := by simpa using hv
      obtain ⟨r, g, b, rfl⟩ : ∃ r g b, xs = [r, g, b] := by
        match xs, hlen with
        | [r, g, b], _ => exact ⟨r, g, b, rfl⟩
      have hstep : setIndLedLoop keys ((key, PyVal.tup [r, g, b]) :: rest) parameter =
          setIndLedLoop keys rest parameter := by
        simp [setIndLedLoop, hk]
      rw [hstep]
      exact ih hrest parameter
    | int n => simp at hv
    | str s => simp at hv
    | dict es => simp at hv
    | func i => simp at hv
    | pynone => simp at hv

/-- C6: a mapping whose items all have known key names with 3-tuple
values but whose resolved LED identifiers are all falsy (`0`) makes
`set_ind_led_color` skip every item and submit the empty batch to
`set_led_colors`, returning successfully. -/
theorem C6_set_ind_led_color_all_falsy (keys : List (String × Nat))
    (entries : List (String × PyVal))
    (h : entries.all (fun kv =>
      (dictLookup keys kv.1 == some 0) &&
        (match kv.2 with | .tup xs => xs.length == 3 | _ => false)) = true) :
    set_ind_led_color keys (.dict entries) = .ok [] := by
  simpa [set_ind_led_color] using setIndLedLoop_all_falsy keys entries h []

/-- Witness for C6: both keys resolve to the identifier `0`. -/
theorem C6_set_ind_led_color_all_falsy_witness :
    set_ind_led_color [("a", 0), ("b", 0), ("c", 7)]
        (.dict [("a", .tup [.int 1, .int 2, .int 3]), ("b", .tup [.str "x", .pynone, .int 300])]) =
      .ok [] :=
  C6_set_ind_led_color_all_falsy [("a", 0), ("b", 0), ("c", 7)]
    [("a", .tup [.int 1, .int 2, .int 3]), ("b", .tup [.str "x", .pynone, .int 300])]
    (by simp [dictLookup])

/-- C10: an argument that is not a dict makes `set_ind_led_color` raise
`ValueError("Parameter leds is not a dictionary")` before any other
work, so nothing is submitted to the vendor library. -/
theorem C10_set_ind_led_color_not_dict (keys : List (String × Nat)) (leds : PyVal)
    (h : leds.isDict = false) :
    set_ind_led_color keys leds = .error (.valueError "Parameter leds is not a dictionary") := by
  match leds, h with
  | .int n, _ => rfl
  | .str s, _ => rfl
  | .tup xs, _ => rfl
  | .func i, _ => rfl
  | .pynone, _ => rfl
  | .dict es, h => simp [PyVal.isDict] at h

/-- Witness for C10: a tuple is not a dict. -/
theorem C10_set_ind_led_color_not_dict_witness :
    set_ind_led_color [("a", 3)] (.tup [.int 1]) =
      .error (.valueError "Parameter leds is not a dictionary") :=
  C10_set_ind_led_color_not_dict [("a", 3)] (.tup [.int 1]) rfl

/-- A `pynput.keyboard.Listener` object as the adapter sees it: it only
carries the callback it was constructed with
(`kb.Listener(on_press=self._callback)`); its thread behaviour enters the
model through the liveness observations of `enable_key_callback`. -/
structure Listener where
  on_press : PyVal

/-- The callback/listener fields of a `Corsair` instance, both
initialised to `None` in `__init__`. -/
structure Corsair where
  _callback : Option PyVal
  _listener : Option Listener

/-- `Corsair.set_key_callback(callback)`: raises
`ValueError("Parameter callback passed not callable")` for a
non-invocable argument — before either field is assigned, so the pair
returned on the error path is the unchanged instance — and otherwise
stores the callback and a fresh listener bound to it.  The result is the
instance after the call together with the raised exception, if any. -/
def set_key_callback (self : Corsair) (callback : PyVal) : Corsair × Option PyError :=
  if callback.isCallable = false then
    (self, some (.valueError "Parameter callback passed not callable"))
  else
    ({ _callback := some callback, _listener := some ⟨callback⟩ }, none)

/-- The guard `if not self._callback or not callable(self._callback)` of
`enable_key_callback`, as the truth of its negation: `False` for `None`
(falsy), and for a stored value the conjunction of its truthiness and
invocability. -/
def callbackOk : Option PyVal → Bool
  | none => false
  | some c => c.truthy && c.isCallable

/-- What a call to `enable_key_callback` did on its success path. -/
inductive EnableEffect where
  | started
  | stoppedAfter (polls : Nat)
  deriving DecidableEq

/-- The busy-wait `while self._listener.is_alive(): pass` that follows
`self._listener.stop()`: `alive n` is the value `is_alive()` returns at
the n-th poll after the stop signal.  `pollLoop alive fuel i` runs up to
`fuel` further iterations starting at poll index `i` and returns the
index of the first `false` observation; `none` means every observed poll
was still `true` and the loop has not yet returned (the source loop has
no bound — `fuel` only truncates the model, standing for an incomplete
run). -/
def pollLoop (alive : Nat → Bool) : Nat → Nat → Option Nat
  | 0, _ => none
  | fuel + 1, i => if alive i then pollLoop alive fuel (i + 1) else some i

/-- `Corsair.enable_key_callback(enable)`: raises
`ValueError("Callback not set. Please use set_key_callback")` when the
callback guard fails, then
`ValueError("Callback set but listener not found")` when `self._listener`
is `None` (a stored `Listener` object is truthy and passes the
`isinstance` check).  With `enable=True` it starts the listener; with
`enable=False` it stops it and busy-polls `is_alive()`; `ok none` means
the busy-wait was still running after `fuel` polls, `ok (some e)` that
the call returned with effect `e`. -/
def enable_key_callback (self : Corsair) (enable : Bool) (alive : Nat → Bool)
    (fuel : Nat) : Except PyError (Option EnableEffect) :=
  if callbackOk self._callback = false then
    .error (.valueError "Callback not set. Please use set_key_callback")
  else if self._listener.isNone then
    .error (.valueError "Callback set but listener not found")
  else if enable then
    .ok (some .started)
  else
    match pollLoop alive fuel 0 with
    | some i => .ok (some (.stoppedAfter i))
    | none => .ok none

/-- C7: `set_key_callback` on a non-invocable argument raises
`ValueError("Parameter callback passed not callable")` and leaves the
instance — both the registered callback and the listener — exactly as it
was. -/
theorem C7_set_key_callback_not_callable (self : Corsair) (callback : PyVal)
    (h : callback.isCallable = false) :
    set_key_callback self callback =
      (self, some (.valueError "Parameter callback passed not callable")) := by
  simp [set_key_callback, h]

/-- Witness for C7: an instance with a previously registered callback and
listener, handed the non-invocable argument `3`. -/
theorem C7_set_key_callback_not_callable_witness :
    set_key_callback ⟨some (.func 1), some ⟨.func 1⟩⟩ (.int 3) =
      (⟨some (.func 1), some ⟨.func 1⟩⟩,
        some (.valueError "Parameter callback passed not callable")) :=
  C7_set_key_callback_not_callable ⟨some (.func 1), some ⟨.func 1⟩⟩ (.int 3) rfl

/-- If the poll loop returned at index `i`, the liveness flag read
`false` there and `true` at every earlier poll. -/
theorem pollLoop_returns_on_false (alive : Nat → Bool) :
    ∀ fuel s i, pollLoop alive fuel s = some i →
      alive i = false ∧ ∀ j, s ≤ j → j < i → alive j = true := by
  intro fuel
  induction fuel with
  | zero => intro s i h; simp [pollLoop] at h
  | succ n ih =>
    intro s i h
    by_cases ha : alive s = true
    · have hrec : pollLoop alive n (s + 1) = some i := by
        simpa [pollLoop, ha] using h
      obtain ⟨hf, hprev⟩ := ih (s + 1) i hrec
      refine ⟨hf, fun j hsj hji => ?_⟩
      rcases Nat.eq_or_lt_of_le hsj with heq | hlt
      · exact heq ▸ ha
      · exact hprev j hlt hji
    · have ha0 : alive s = false := by simpa using ha
      have hi : i = s := by
        have : some s = some i := by simpa [pollLoop, ha0] using h
        exact (Option.some.injEq .. ▸ this).symm
      subst hi
      exact ⟨ha0, fun j hsj hji => absurd (Nat.lt_of_le_of_lt hsj hji) (Nat.lt_irrefl _)⟩

/-- C8: whenever `enable_key_callback(False)` returns control to the
caller (result `ok (some (stoppedAfter i))`), the liveness flag reported
`false` at the final poll `i`, and every poll before it — while the call
was still blocking — reported `true`: the call does not return until
`is_alive()` reports `false`. -/
theorem C8_enable_key_callback_false_blocks (self : Corsair) (alive : Nat → Bool)
    (fuel i : Nat)
    (h : enable_key_callback self false alive fuel = .ok (some (.stoppedAfter i))) :
    alive i = false ∧ ∀ j, j < i → alive j = true := by
  by_cases hcb : callbackOk self._callback = false
  · simp [enable_key_callback, hcb] at h
  · by_cases hl : self._listener.isNone
    · simp [enable_key_callback, hcb, hl] at h
    · rcases hp : pollLoop alive fuel 0 with _ | k
      · simp [enable_key_callback, hcb, hl, hp] at h
      · have hk : k = i := by simpa [enable_key_callback, hcb, hl, hp] using h
        obtain ⟨hf, hprev⟩ := pollLoop_returns_on_false alive fuel 0 i (hk ▸ hp)
        exact ⟨hf, fun j hj => hprev j (Nat.zero_le j) hj⟩

/-- Witness for C8: a registered instance whose listener reports alive
for the first two polls; the call returns at poll `2`, where the flag is
`false`. -/
theorem C8_enable_key_callback_false_blocks_witness :
    enable_key_callback ⟨some (.func 0), some ⟨.func 0⟩⟩ false
        (fun n => decide (n < 2)) 5 = .ok (some (.stoppedAfter 2)) ∧
      (fun n => decide (n < 2)) 2 = false :=
  ⟨rfl, (C8_enable_key_callback_false_blocks ⟨some (.func 0), some ⟨.func 0⟩⟩
    (fun n => decide (n < 2)) 5 2 rfl).1⟩

/-- C9: on an instance where no callback has been registered
(`self._callback` is `None`, as after `__init__`), `enable_key_callback`
with `enable=True` raises
`ValueError("Callback not set. Please use set_key_callback")`. -/
theorem C9_enable_key_callback_no_callback (self : Corsair) (alive : Nat → Bool)
    (fuel : Nat) (h : self._callback = none) :
    enable_key_callback self true alive fuel =
      .error (.valueError "Callback not set. Please use set_key_callback") := by
  simp [enable_key_callback, callbackOk, h]

/-- Witness for C9 at the freshly constructed instance. -/
theorem C9_enable_key_callback_no_callback_witness :
    enable_key_callback ⟨none, none⟩ true (fun _ => true) 3 =
      .error (.valueError "Callback not set. Please use set_key_callback") :=
  C9_enable_key_callback_no_callback ⟨none, none⟩ (fun _ => true) 3 rfl

end Rgbkeyboards
